import Mathlib

/-
  Verification of the xauth cryptographic/protocol core against its
  natural-language specification.

  The WebCrypto primitives (PBKDF2, AES-GCM, ECDSA) are external engines the
  specification treats as correct and opaque; they are modelled here
  symbolically, as free terms: a PBKDF2-derived key is the formal term
  "derived(password, salt, iterations)", an AES-GCM ciphertext is the formal
  term "sealed(key, iv, plaintext)" whose authenticated open succeeds exactly
  when the same key and IV are supplied, and an ECDSA signature is the formal
  term "signature(privateScalar, message)" that verifies exactly against the
  matching public key and the same message.  Base64 and base64url transport
  encodings are bijections and are elided: byte strings are carried directly.
  Everything the repository itself computes - the wrap/unwrap codec plumbing,
  the JWK coordinate extraction and padding, the JWT assembly and the
  verifier's check sequence, the trust store and the login-flow guards - is
  translated from the source.
-/

namespace XAuth

/-- JWK-like EC key material: curve name and the numeric components, each a
big-endian byte string (the base64url transport encoding of the source is a
bijection on byte strings and is elided).  `none` models an absent (JS
`undefined`) field. -/
structure JwkKey where
  kty : String
  crv : Option String
  x : Option (List Nat)
  y : Option (List Nat)
  d : Option (List Nat)
  deriving DecidableEq

/-- A WebCrypto `CryptoKey` handle as far as the wrap/unwrap codec observes
it: its JWK material, its extractable flag and its usage list. -/
structure CryptoKeyHandle where
  material : JwkKey
  extractable : Bool
  usages : List String
  deriving DecidableEq

/-- A PBKDF2-HMAC-SHA256-derived AES key, as a free term: two derived keys
are equal exactly when password, salt and iteration count coincide
(ideal-primitive model of `deriveKeyFromPassword` in src/src/auth.ts). -/
structure DerivedKey where
  password : String
  salt : List Nat
  iterations : Nat
  deriving DecidableEq

/-- Number of PBKDF2 iterations (`PBKDF2_ITERATIONS` in src/src/auth.ts). -/
def PBKDF2_ITERATIONS : Nat := 100000

/-- `deriveKeyFromPassword` of src/src/auth.ts: derive the AES-256-GCM
wrapping key from a password and a salt via PBKDF2 with 100000 iterations. -/
def deriveKeyFromPassword (password : String) (salt : List Nat) : DerivedKey :=
  ⟨password, salt, PBKDF2_ITERATIONS⟩

/-- An AES-256-GCM ciphertext (with its authentication tag), as a free term
recording the sealing key, the IV and the sealed JWK plaintext (ideal AEAD
model of `crypto.subtle.wrapKey` with format "jwk"). -/
structure GcmSealed where
  key : DerivedKey
  iv : List Nat
  plain : JwkKey
  deriving DecidableEq

/-- Ideal AES-GCM open: the tag check succeeds exactly when the supplied key
and IV are the ones the ciphertext was sealed under, in which case the sealed
plaintext is returned. -/
def gcmOpen (key : DerivedKey) (iv : List Nat) (ct : GcmSealed) : Option JwkKey :=
  if ct.key = key ∧ ct.iv = iv then some ct.plain else none

/-- The `WrappedKeyPayload` record of src/src/auth.ts.  `salt` and `iv` are
stored base64-encoded in the JSON payload; base64 is a bijection on byte
strings and is elided, so raw bytes are carried. -/
structure WrappedKeyPayload where
  salt : List Nat
  iv : List Nat
  cipherText : GcmSealed
  keyAlgorithmName : String
  keyAlgorithmNamedCurve : Option String
  keyExtractable : Bool
  keyUsages : List String
  deriving DecidableEq

/-- `wrapPrivateKeyWithPassword` of src/src/auth.ts (lines 86-113): derive a
wrapping key from the password and a fresh 16-byte salt, draw a fresh
12-byte IV, AES-GCM-wrap the private key's JWK, and record the key's
metadata in the payload.  The two random draws are passed as the explicit
arguments `salt` and `iv`, so theorems quantify over every possible draw. -/
def wrapPrivateKeyWithPassword (privateKeyToWrap : CryptoKeyHandle)
    (password : String) (salt iv : List Nat) : WrappedKeyPayload :=
  let wrappingKey := deriveKeyFromPassword password salt
  { salt := salt
    iv := iv
    cipherText := ⟨wrappingKey, iv, privateKeyToWrap.material⟩
    keyAlgorithmName :=
      if privateKeyToWrap.material.kty = "EC" then "ECDSA"
      else if privateKeyToWrap.material.kty = "" then "Unknown"
      else privateKeyToWrap.material.kty
    keyAlgorithmNamedCurve := privateKeyToWrap.material.crv
    keyExtractable := privateKeyToWrap.extractable
    keyUsages := privateKeyToWrap.usages }

/-- Failure of the authenticated unwrap: the AES-GCM tag check failed, which
is the sole signal for both a wrong password and a tampered payload. -/
inductive UnwrapError where
  | wrongPasswordOrCorruptData
  deriving DecidableEq

/-- `unwrapPrivateKeyWithPassword` of src/src/auth.ts (lines 115-138):
re-derive the wrapping key from the supplied password and the stored salt,
authenticated-decrypt under the stored IV, and re-import the recovered JWK
with the stored extractable flag and usage list.  The function is pure: it
reads the payload and never writes it back. -/
def unwrapPrivateKeyWithPassword (payload : WrappedKeyPayload)
    (password : String) : Except UnwrapError CryptoKeyHandle :=
  let wrappingKey := deriveKeyFromPassword password payload.salt
  match gcmOpen wrappingKey payload.iv payload.cipherText with
  | some jwk => .ok ⟨jwk, payload.keyExtractable, payload.keyUsages⟩
  | none => .error .wrongPasswordOrCorruptData

/-- JS truthiness of an optional string field, as tested by checks such as
`!jwk.crv`: falsy when absent (`undefined`) or the empty string. -/
def strFalsy : Option String → Bool
  | none => true
  | some s => s = ""

/-- JS truthiness of an optional base64url-encoded byte-string field, as
tested by `!jwk.x`: falsy when absent or when the encoded string is empty
(the empty string decodes to the empty byte string). -/
def bytesFalsy : Option (List Nat) → Bool
  | none => true
  | some b => b.isEmpty

/-- `padToLength` of src/src/auth.ts (inside `extractPublicKeyFromJWK`,
lines 281-296): return the bytes unchanged when already of the requested
length, keep only the last `len` bytes when longer, and left-pad with zero
bytes when shorter. -/
def padToLength (bytes : List Nat) (len : Nat) : List Nat :=
  if bytes.length = len then bytes
  else if bytes.length > len then bytes.drop (bytes.length - len)
  else List.replicate (len - bytes.length) 0 ++ bytes

/-- Failures of the JWK import path in src/src/auth.ts. -/
inductive ImportError where
  /-- Thrown by `importJwkAsKeys` when the JWK is not a complete private EC
  key (kty, crv, x, y or d missing). -/
  | invalidKeyMaterial
  /-- Thrown by `extractPublicKeyFromJWK` when x or y is missing. -/
  | missingCoordinates
  deriving DecidableEq

/-- `extractPublicKeyFromJWK` of src/src/auth.ts (lines 267-308): decode the
JWK's embedded `x` and `y` coordinates, canonicalize each to 48 bytes, and
emit the uncompressed point encoding: the tag byte 0x04 followed by the two
48-byte coordinates.  The private component `d` is never read. -/
def extractPublicKeyFromJWK (jwk : JwkKey) : Except ImportError (List Nat) :=
  if bytesFalsy jwk.x ∨ bytesFalsy jwk.y then .error .missingCoordinates
  else .ok (4 :: (padToLength (jwk.x.getD []) 48 ++ padToLength (jwk.y.getD []) 48))

/-- `importJwkAsKeys` of src/src/auth.ts (lines 310-341): validate that the
JWK is a structurally complete private EC key (kty is "EC" and crv, x, y, d
are all present and truthy), import the JWK as a non-extractable sign-only
private key handle, and build the raw public key from the uncompressed point
extracted from the embedded coordinates.  No range check is applied to `d`. -/
def importJwkAsKeys (jwk : JwkKey) :
    Except ImportError (CryptoKeyHandle × List Nat) :=
  if jwk.kty ≠ "EC" ∨ strFalsy jwk.crv ∨ bytesFalsy jwk.x ∨ bytesFalsy jwk.y
      ∨ bytesFalsy jwk.d then
    .error .invalidKeyMaterial
  else
    match extractPublicKeyFromJWK jwk with
    | .error e => .error e
    | .ok pt => .ok (⟨jwk, false, ["sign"]⟩, pt)

/-- A P-384 private signing key handle; `id` abstracts the private scalar. -/
structure EcPrivKey where
  id : Nat
  deriving DecidableEq

/-- A P-384 public verifying key handle; `id` is the private scalar the key
corresponds to, so a pair matches exactly when the ids coincide. -/
structure EcPubKey where
  id : Nat
  deriving DecidableEq

/-- The decoded view of a JSON object segment of a JWT: exactly the fields
the issuer writes and the verifier reads.  `none` models an absent field. -/
structure JsonObj where
  alg : Option String
  typ : Option String
  iss : Option String
  sub : Option String
  exp : Option Int
  iat : Option Int
  cstm_dat : Option String
  deriving DecidableEq

/-- An ECDSA/SHA-384 signature over the string
"encodedHeader.encodedPayload", as a free term recording the signing scalar
and the two signed objects (the base64url-of-JSON encoding of a `JsonObj` is
injective, so the signed string is identified with the object pair). -/
structure EcdsaSig where
  signerId : Nat
  header : JsonObj
  payload : JsonObj
  deriving DecidableEq

/-- One dot-separated segment of a token string, identified by what its
base64url decoding contains: a JSON object, ECDSA signature bytes, or other
bytes that parse as neither. -/
inductive JwtSeg where
  | json (o : JsonObj)
  | sig (s : EcdsaSig)
  | raw (n : Nat)
  deriving DecidableEq

/-- JSON.parse applied to a decoded segment: succeeds exactly on segments
holding a JSON object. -/
def segAsJson : JwtSeg → Option JsonObj
  | .json o => some o
  | _ => none

/-- Ideal ECDSA verification as performed by `crypto.subtle.verify` over the
signing input rebuilt from the received header and payload segments: succeeds
exactly when the signature segment holds a signature by the matching private
scalar over the same header and payload. -/
def ecdsaVerifies (publicKey : EcPubKey) (sigSeg : JwtSeg)
    (header payload : JsonObj) : Prop :=
  match sigSeg with
  | .sig s => s.signerId = publicKey.id ∧ s.header = header ∧ s.payload = payload
  | _ => False

instance (publicKey : EcPubKey) (sigSeg : JwtSeg) (header payload : JsonObj) :
    Decidable (ecdsaVerifies publicKey sigSeg header payload) := by
  cases sigSeg with
  | sig s => exact inferInstanceAs (Decidable (_ ∧ _ ∧ _))
  | json o => exact isFalse fun h => h
  | raw n => exact isFalse fun h => h

/-- The expiry test `payload.exp <= nowSeconds` of the verifier, with JS
semantics for a missing field: `undefined <= n` is false, so a payload
without `exp` is never reported expired. -/
def jsExpired : Option Int → Int → Prop
  | some e, now => e ≤ now
  | none, _ => False

instance (e? : Option Int) (now : Int) : Decidable (jsExpired e? now) := by
  cases e? with
  | some e => exact inferInstanceAs (Decidable (e ≤ now))
  | none => exact isFalse fun h => h

/-- The typed verification failures of `verifyLoginJWT` in src/src/App.svelte
(each `throw` site), plus the JSON-parse failure path of the surrounding
try/catch for segments that are not valid JSON. -/
inductive VerifyErr where
  | malformedToken
  | unsupportedAlgorithm
  | tokenExpired
  | invalidSignature
  | parseFailure
  deriving DecidableEq

/-- `verifyLoginJWT` of src/src/App.svelte (lines 69-139): split the token
into dot-separated segments and require exactly three; decode the header and
require alg "ES384" and typ "JWT"; decode the payload; reject when
`payload.exp <= now`; finally recompute ECDSA/SHA-384 verification of the
signature segment over "encodedHeader.encodedPayload".  `now` is the wall
clock `Math.floor(Date.now() / 1000)` passed explicitly. -/
def verifyLoginJWT (tok : List JwtSeg) (publicKey : EcPubKey) (now : Int) :
    Except VerifyErr JsonObj :=
  match tok with
  | [s0, s1, s2] =>
    match segAsJson s0 with
    | none => .error .parseFailure
    | some header =>
      if header.alg ≠ some "ES384" ∨ header.typ ≠ some "JWT" then
        .error .unsupportedAlgorithm
      else
        match segAsJson s1 with
        | none => .error .parseFailure
        | some payload =>
          if jsExpired payload.exp now then .error .tokenExpired
          else if ecdsaVerifies publicKey s2 header payload then .ok payload
          else .error .invalidSignature
  | _ => .error .malformedToken

/-- `getPublicKeyDigest` of src/src/auth.ts (lines 144-151): the hex SHA-256
digest of the public key's SPKI encoding, modelled as an injective symbolic
digest of the key handle. -/
def getPublicKeyDigest (publicKey : EcPubKey) : String :=
  "sha256-spki-" ++ toString publicKey.id

/-- The fixed JWT header built by `createSignedLoginToken`:
alg "ES384", typ "JWT" and nothing else. -/
def jwtHeader : JsonObj :=
  ⟨some "ES384", some "JWT", none, none, none, none, none⟩

/-- The truthiness test `if (customPayloadData)` guarding the `cstm_dat`
assignment in src/src/auth.ts (lines 185-187): the field is written only for
a non-empty string; `null`, `undefined` and the empty string are all falsy
and leave the field absent. -/
def normalizeCustomData : Option String → Option String
  | some s => if s = "" then none else some s
  | none => none

/-- The login-token payload built by `createSignedLoginToken` of
src/src/auth.ts (lines 179-188): iss is the public-key digest, sub the
callback URL, exp is iat + 86400 seconds, and cstm_dat is added only when
the custom payload data is truthy. -/
def loginTokenPayload (publicKey : EcPubKey) (callbackUrl : String)
    (customPayloadData : Option String) (nowSeconds : Int) : JsonObj :=
  { alg := none
    typ := none
    iss := some (getPublicKeyDigest publicKey)
    sub := some callbackUrl
    exp := some (nowSeconds + 86400)
    iat := some nowSeconds
    cstm_dat := normalizeCustomData customPayloadData }

/-- `createSignedLoginToken` of src/src/auth.ts (lines 161-208): build the
fixed header and the payload, sign "encodedHeader.encodedPayload" with
ECDSA/SHA-384 under the private key, and assemble the three-segment token.
`nowSeconds` is the wall clock `Math.floor(Date.now() / 1000)` passed
explicitly. -/
def createSignedLoginToken (privateKey : EcPrivKey) (publicKey : EcPubKey)
    (callbackUrl : String) (customPayloadData : Option String)
    (nowSeconds : Int) : List JwtSeg :=
  let header := jwtHeader
  let payload := loginTokenPayload publicKey callbackUrl customPayloadData nowSeconds
  [JwtSeg.json header, JwtSeg.json payload,
   JwtSeg.sig ⟨privateKey.id, header, payload⟩]

/-- Modelled from the spec: the payload of the current revision of
`createSignedLoginToken`.  The three-argument revision imported by
src/src/lib/components/LoginFlow.svelte is not present under src/ (the copy
in src/src/auth.ts is the earlier four-argument revision that still writes
an `iss` claim); per spec section 4.4 and the removal comments in the
verifier, the current payload is exactly sub, iat, exp and the optional
cstm_dat, with no iss claim. -/
def currentLoginPayload (callbackUrl : String)
    (customPayloadData : Option String) (nowSeconds : Int) : JsonObj :=
  { alg := none
    typ := none
    iss := none
    sub := some callbackUrl
    exp := some (nowSeconds + 86400)
    iat := some nowSeconds
    cstm_dat := normalizeCustomData customPayloadData }

/-- Modelled from the spec: the current three-argument revision of
`createSignedLoginToken` as imported by LoginFlow.svelte - identical to the
revision in src/src/auth.ts except that the payload carries no iss claim and
the public key is no longer an argument. -/
def createSignedLoginTokenCurrent (privateKey : EcPrivKey)
    (callbackUrl : String) (customPayloadData : Option String)
    (nowSeconds : Int) : List JwtSeg :=
  let header := jwtHeader
  let payload := currentLoginPayload callbackUrl customPayloadData nowSeconds
  [JwtSeg.json header, JwtSeg.json payload,
   JwtSeg.sig ⟨privateKey.id, header, payload⟩]

/-- Modelled from the spec: `exportPublicKeyToSpkiBase64Url`, imported by
LoginFlow.svelte but absent from src/src/auth.ts - the base64url SPKI
encoding of the verifying key, modelled as an injective symbolic encoding. -/
def exportPublicKeyToSpkiBase64Url (publicKey : EcPubKey) : String :=
  "spki-" ++ toString publicKey.id

/-- The redirect assembled by `proceedWithLogin` of LoginFlow.svelte: the
callback URL with the `jwt` and `pubKey` query parameters appended. -/
structure LoginRedirect where
  base : String
  jwtParam : List JwtSeg
  pubKeyParam : String
  deriving DecidableEq

/-- `proceedWithLogin` of src/src/lib/components/LoginFlow.svelte (lines
76-97): issue the signed login token for the callback URL, export the public
key as base64url SPKI, and redirect to the callback URL carrying both as the
`jwt` and `pubKey` query parameters. -/
def proceedWithLogin (privateKey : EcPrivKey) (publicKey : EcPubKey)
    (callbackUrl : String) (customPayload : Option String)
    (nowSeconds : Int) : LoginRedirect :=
  { base := callbackUrl
    jwtParam := createSignedLoginTokenCurrent privateKey callbackUrl customPayload nowSeconds
    pubKeyParam := exportPublicKeyToSpkiBase64Url publicKey }

/-- The TrustedCallbacks object store of src/src/lib/indexedDB.ts: a keyed
store of boolean flags, keyed by the exact callback URL string.  A later
`put` under the same key shadows the earlier value, so the list is read
front-first. -/
abbrev TrustStore : Type := List (String × Bool)

/-- The IndexedDB `get` on the trusted-callbacks store: the most recently
put value under the exact key, if any. -/
def trustStoreGet : TrustStore → String → Option Bool
  | [], _ => none
  | kv :: rest, url => if kv.1 = url then some kv.2 else trustStoreGet rest url

/-- `saveTrustedCallbackUrl` of src/src/lib/indexedDB.ts (lines 79-99):
`put(true, url)` on the trusted-callbacks store, keyed by the exact URL
string. -/
def saveTrustedCallbackUrl (store : TrustStore) (url : String) : TrustStore :=
  (url, true) :: store

/-- `isCallbackUrlTrusted` of src/src/lib/indexedDB.ts (lines 101-122):
`get(url)` on the trusted-callbacks store coerced to a boolean
(`!!result`), so an absent record reads as untrusted. -/
def isCallbackUrlTrusted (store : TrustStore) (url : String) : Bool :=
  match trustStoreGet store url with
  | some b => b
  | none => false

/-- A parsed URL as far as the login-flow guards observe it (the result of
`new URL(raw)`): scheme (with trailing colon, e.g. "https:"), host, and the
remainder used only for re-serialization. -/
structure UrlT where
  protocol : String
  host : String
  pathAndRest : String
  deriving DecidableEq

/-- `URL.toString()` on the parsed callback URL. -/
def urlToString (u : UrlT) : String :=
  u.protocol ++ "//" ++ u.host ++ u.pathAndRest

/-- The outcome of the login-flow initialization in LoginFlow.svelte's
`onMount`: one terminal error or continuation state per exit path. -/
inductive LoginInitOutcome where
  | errorMissingCallback
  | errorInvalidUrl
  | errorSameHost
  | errorInsecureCallback
  | accountCreationRequired
  | awaitingConfirmation
  | proceedLogin (redirect : LoginRedirect)
  deriving DecidableEq

/-- The `onMount` initialization of src/src/lib/components/LoginFlow.svelte
(lines 22-74): require the callback parameter, parse it (outer `none` models
a missing parameter, inner `none` an unparsable URL), reject a callback on
the application's own host, reject a non-HTTPS callback when the app itself
is served over HTTPS, require stored keys, and only then consult the trust
store: a trusted URL proceeds straight to token issuance, an untrusted one
awaits explicit confirmation. -/
def loginFlowOnMount (rawCallbackParam : Option (Option UrlT))
    (location : UrlT) (keys : Option (EcPrivKey × EcPubKey)) (trusted : Bool)
    (loginPayloadData : Option String) (nowSeconds : Int) : LoginInitOutcome :=
  match rawCallbackParam with
  | none => .errorMissingCallback
  | some none => .errorInvalidUrl
  | some (some u) =>
    if u.host = location.host then .errorSameHost
    else if location.protocol = "https:" ∧ u.protocol ≠ "https:" then
      .errorInsecureCallback
    else
      match keys with
      | none => .accountCreationRequired
      | some kp =>
        if trusted then
          .proceedLogin (proceedWithLogin kp.1 kp.2 (urlToString u)
            loginPayloadData nowSeconds)
        else .awaitingConfirmation

/-
  Theorems settling the claims.
-/

/-- Claim C1: for every valid extractable private key material k and every
password p, unwrapping the payload produced by wrapping k under p, using the
same password p, returns key material equal to k - for every salt and IV the
wrap call may draw, so the round trip holds despite the fresh randomness of
each call. -/
theorem wrap_unwrap_same_password_roundtrip
    (k : CryptoKeyHandle) (password : String) (salt iv : List Nat)
    (_hx : k.extractable = true) :
    unwrapPrivateKeyWithPassword
      (wrapPrivateKeyWithPassword k password salt iv) password = .ok k := by
  simp [unwrapPrivateKeyWithPassword, wrapPrivateKeyWithPassword, gcmOpen]

/-- Witness for C1: the round trip at a concrete key, password, salt and
IV. -/
theorem wrap_unwrap_same_password_roundtrip_witness :
    (⟨⟨"EC", some "P-384", some [1], some [2], some [3]⟩, true,
        ["sign", "verify"]⟩ : CryptoKeyHandle).extractable = true
    ∧ unwrapPrivateKeyWithPassword
        (wrapPrivateKeyWithPassword
          ⟨⟨"EC", some "P-384", some [1], some [2], some [3]⟩, true,
            ["sign", "verify"]⟩ "correct horse" [5, 6] [7, 8])
        "correct horse"
      = .ok ⟨⟨"EC", some "P-384", some [1], some [2], some [3]⟩, true,
          ["sign", "verify"]⟩ :=
  ⟨rfl, wrap_unwrap_same_password_roundtrip _ "correct horse" [5, 6] [7, 8] rfl⟩

/-- Claim C4: unwrapping a payload wrapped under password p with a different
password p2 fails with the wrong-password-or-corrupt-data error (the AES-GCM
tag check), for every salt and IV of the wrap.  The unwrap function is pure:
it only reads the payload, so the still-wrapped payload is untouched by the
failed attempt. -/
theorem unwrap_wrong_password_fails
    (k : CryptoKeyHandle) (p p2 : String) (salt iv : List Nat)
    (h : p2 ≠ p) :
    unwrapPrivateKeyWithPassword (wrapPrivateKeyWithPassword k p salt iv) p2
      = .error .wrongPasswordOrCorruptData := by
  have hne : p ≠ p2 := fun e => h e.symm
  simp [unwrapPrivateKeyWithPassword, wrapPrivateKeyWithPassword, gcmOpen,
    deriveKeyFromPassword, DerivedKey.mk.injEq, hne]

/-- Witness for C4: a wrong-password unwrap at concrete inputs. -/
theorem unwrap_wrong_password_fails_witness :
    ("wrong" : String) ≠ "right"
    ∧ unwrapPrivateKeyWithPassword
        (wrapPrivateKeyWithPassword
          ⟨⟨"EC", some "P-384", some [1], some [2], some [3]⟩, true, ["sign"]⟩
          "right" [5, 6] [7, 8])
        "wrong"
      = .error .wrongPasswordOrCorruptData :=
  ⟨by decide,
   unwrap_wrong_password_fails _ "right" "wrong" [5, 6] [7, 8] (by decide)⟩

/-- The canonicalized coordinate always has exactly the requested width:
`padToLength` keeps, truncates to, or pads up to `len` bytes. -/
theorem padToLength_length (bytes : List Nat) (len : Nat) :
    (padToLength bytes len).length = len := by
  unfold padToLength
  split_ifs with h1 h2
  · exact h1
  · simp only [List.length_drop]
    omega
  · simp only [List.length_append, List.length_replicate]
    omega

/-- A complete private EC JWK whose scalar d is the 48-byte big-endian
encoding of zero, with embedded public coordinates. -/
def zeroScalarJwk : JwkKey :=
  ⟨"EC", some "P-384", some [1], some [2], some (List.replicate 48 0)⟩

/-- Counterexample to claim C2 as stated: the claim requires a private
scalar d that is zero (as 48 big-endian bytes) to fail with InvalidScalar,
but `importJwkAsKeys` only checks that kty is "EC" and that crv, x, y, d are
present, and the derivation reads the embedded x and y and never d - so
importing a zero-scalar JWK succeeds and returns the point encoded from the
embedded coordinates. -/
theorem zero_scalar_accepted_counterexample :
    importJwkAsKeys zeroScalarJwk
      = .ok (⟨zeroScalarJwk, false, ["sign"]⟩,
          4 :: (padToLength [1] 48 ++ padToLength [2] 48)) := by
  rfl

/-- Claim C2 as amended: the point-derivation operation performs no scalar
multiplication - for every structurally complete private EC JWK (kty "EC",
crv, x, y, d present and non-empty), `importJwkAsKeys` succeeds and returns
the non-extractable sign-only private handle together with the 97-byte
uncompressed encoding 0x04 followed by the embedded x and y coordinates,
each canonicalized to 48 bytes (left-zero-padded when shorter, truncated to
the low 48 bytes when longer); the scalar d is never read and never
range-checked. -/
theorem derive_point_from_embedded_coordinates
    (jwk : JwkKey) (xB yB dB : List Nat)
    (hkty : jwk.kty = "EC") (hcrv : strFalsy jwk.crv = false)
    (hxv : jwk.x = some xB) (hxne : xB ≠ [])
    (hyv : jwk.y = some yB) (hyne : yB ≠ [])
    (hdv : jwk.d = some dB) (hdne : dB ≠ []) :
    importJwkAsKeys jwk
      = .ok (⟨jwk, false, ["sign"]⟩,
          4 :: (padToLength xB 48 ++ padToLength yB 48))
    ∧ (4 :: (padToLength xB 48 ++ padToLength yB 48)).length = 97 := by
  have hxf : bytesFalsy (some xB) = false := by
    cases xB with
    | nil => exact absurd rfl hxne
    | cons a t => rfl
  have hyf : bytesFalsy (some yB) = false := by
    cases yB with
    | nil => exact absurd rfl hyne
    | cons a t => rfl
  have hdf : bytesFalsy (some dB) = false := by
    cases dB with
    | nil => exact absurd rfl hdne
    | cons a t => rfl
  constructor
  · simp [importJwkAsKeys, extractPublicKeyFromJWK, hkty, hcrv, hxf, hyf, hdf,
      hxv, hyv, hdv]
  · simp [List.length_append, padToLength_length]

/-- Witness for the amended C2: a concrete complete JWK whose short
coordinates are left-padded into the 97-byte encoding. -/
theorem derive_point_from_embedded_coordinates_witness :
    importJwkAsKeys ⟨"EC", some "P-384", some [7], some [9], some [1]⟩
      = .ok (⟨⟨"EC", some "P-384", some [7], some [9], some [1]⟩, false,
          ["sign"]⟩, 4 :: (padToLength [7] 48 ++ padToLength [9] 48))
    ∧ (4 :: (padToLength [7] 48 ++ padToLength [9] 48)).length = 97 :=
  derive_point_from_embedded_coordinates _ [7] [9] [1] rfl rfl rfl
    (by decide) rfl (by decide) rfl (by decide)

/-- Claim C3: for every matching signing/verifying key pair and every
callback URL, verifying the token produced by issuance succeeds and returns
the issued payload, whose sub field is the callback URL and whose exp field
is iat + 86400. -/
theorem issue_verify_token_roundtrip
    (sk : EcPrivKey) (pk : EcPubKey) (url : String) (custom : Option String)
    (now : Int) (hmatch : pk.id = sk.id) :
    verifyLoginJWT (createSignedLoginToken sk pk url custom now) pk now
      = .ok (loginTokenPayload pk url custom now)
    ∧ (loginTokenPayload pk url custom now).sub = some url
    ∧ (loginTokenPayload pk url custom now).iat = some now
    ∧ (loginTokenPayload pk url custom now).exp = some (now + 86400) := by
  refine ⟨?_, rfl, rfl, rfl⟩
  have hexp : ¬ (now + 86400 ≤ now) := by omega
  simp [verifyLoginJWT, createSignedLoginToken, segAsJson, jwtHeader,
    loginTokenPayload, jsExpired, ecdsaVerifies, hexp, hmatch]

/-- Witness for C3: the issue/verify round trip at a concrete key pair,
URL and clock. -/
theorem issue_verify_token_roundtrip_witness :
    (⟨1⟩ : EcPubKey).id = (⟨1⟩ : EcPrivKey).id
    ∧ verifyLoginJWT
        (createSignedLoginToken ⟨1⟩ ⟨1⟩ "https://cb.example/done" none 1000)
        ⟨1⟩ 1000
      = .ok (loginTokenPayload ⟨1⟩ "https://cb.example/done" none 1000)
    ∧ (loginTokenPayload ⟨1⟩ "https://cb.example/done" none 1000).sub
        = some "https://cb.example/done"
    ∧ (loginTokenPayload ⟨1⟩ "https://cb.example/done" none 1000).iat
        = some 1000
    ∧ (loginTokenPayload ⟨1⟩ "https://cb.example/done" none 1000).exp
        = some (1000 + 86400) :=
  ⟨rfl, issue_verify_token_roundtrip ⟨1⟩ ⟨1⟩ _ none 1000 rfl⟩

/-- Claim C5: for a token whose other checks pass (valid header, signature
by the matching key over its segments), verification rejects with
TokenExpired when exp equals the current unix time or is below it, and
accepts when exp is the current time plus one second. -/
theorem verify_expiry_boundary
    (sk : EcPrivKey) (pk : EcPubKey) (header payload : JsonObj) (now : Int)
    (hmatch : pk.id = sk.id)
    (halg : header.alg = some "ES384") (htyp : header.typ = some "JWT") :
    (payload.exp = some now →
      verifyLoginJWT
        [.json header, .json payload, .sig ⟨sk.id, header, payload⟩] pk now
        = .error .tokenExpired)
    ∧ (∀ e : Int, payload.exp = some e → e < now →
      verifyLoginJWT
        [.json header, .json payload, .sig ⟨sk.id, header, payload⟩] pk now
        = .error .tokenExpired)
    ∧ (payload.exp = some (now + 1) →
      verifyLoginJWT
        [.json header, .json payload, .sig ⟨sk.id, header, payload⟩] pk now
        = .ok payload) := by
  refine ⟨?_, ?_, ?_⟩
  · intro he
    simp [verifyLoginJWT, segAsJson, halg, htyp, jsExpired, he]
  · intro e he hlt
    have hle : e ≤ now := le_of_lt hlt
    simp [verifyLoginJWT, segAsJson, halg, htyp, jsExpired, he, hle]
  · intro he
    have hexp : ¬ (now + 1 ≤ now) := by omega
    simp [verifyLoginJWT, segAsJson, halg, htyp, jsExpired, he, hexp,
      ecdsaVerifies, hmatch]

/-- Witness for C5: the three boundary cases at concrete tokens, with the
current time 5: exp 5 and exp 4 are rejected as expired, exp 6 = 5 + 1 is
accepted. -/
theorem verify_expiry_boundary_witness :
    verifyLoginJWT
      [.json jwtHeader, .json ⟨none, none, none, some "u", some 5, some 0, none⟩,
       .sig ⟨1, jwtHeader, ⟨none, none, none, some "u", some 5, some 0, none⟩⟩]
      ⟨1⟩ 5 = .error .tokenExpired
    ∧ verifyLoginJWT
      [.json jwtHeader, .json ⟨none, none, none, some "u", some 4, some 0, none⟩,
       .sig ⟨1, jwtHeader, ⟨none, none, none, some "u", some 4, some 0, none⟩⟩]
      ⟨1⟩ 5 = .error .tokenExpired
    ∧ verifyLoginJWT
      [.json jwtHeader, .json ⟨none, none, none, some "u", some 6, some 0, none⟩,
       .sig ⟨1, jwtHeader, ⟨none, none, none, some "u", some 6, some 0, none⟩⟩]
      ⟨1⟩ 5 = .ok ⟨none, none, none, some "u", some 6, some 0, none⟩ :=
  ⟨(verify_expiry_boundary ⟨1⟩ ⟨1⟩ jwtHeader _ 5 rfl rfl rfl).1 rfl,
   (verify_expiry_boundary ⟨1⟩ ⟨1⟩ jwtHeader _ 5 rfl rfl rfl).2.1 4 rfl
     (by norm_num),
   (verify_expiry_boundary ⟨1⟩ ⟨1⟩ jwtHeader _ 5 rfl rfl rfl).2.2
     (by norm_num)⟩

/-- Claim C6: the verifier applies its checks in the fixed order structural
validity (exactly three segments, else MalformedToken), then header
algorithm and type (else UnsupportedAlgorithm), then expiry (else
TokenExpired), then signature (else InvalidSignature) - each bullet holds
for every state of the later checks, so a token violating several checks at
once reports the earliest violated one. -/
theorem verify_check_order (pk : EcPubKey) (now : Int) :
    (∀ tok : List JwtSeg, tok.length ≠ 3 →
      verifyLoginJWT tok pk now = .error .malformedToken)
    ∧ (∀ header : JsonObj, ∀ s1 s2 : JwtSeg,
        (header.alg ≠ some "ES384" ∨ header.typ ≠ some "JWT") →
        verifyLoginJWT [.json header, s1, s2] pk now
          = .error .unsupportedAlgorithm)
    ∧ (∀ header payload : JsonObj, ∀ s2 : JwtSeg, ∀ e : Int,
        header.alg = some "ES384" → header.typ = some "JWT" →
        payload.exp = some e → e ≤ now →
        verifyLoginJWT [.json header, .json payload, s2] pk now
          = .error .tokenExpired)
    ∧ (∀ header payload : JsonObj, ∀ s2 : JwtSeg,
        header.alg = some "ES384" → header.typ = some "JWT" →
        ¬ jsExpired payload.exp now → ¬ ecdsaVerifies pk s2 header payload →
        verifyLoginJWT [.json header, .json payload, s2] pk now
          = .error .invalidSignature) := by
  refine ⟨?_, ?_, ?_, ?_⟩
  · intro tok h
    rcases tok with _ | ⟨a, _ | ⟨b, _ | ⟨c, _ | ⟨d, t⟩⟩⟩⟩
    · rfl
    · rfl
    · rfl
    · simp at h
    · rfl
  · intro header s1 s2 halg
    rcases halg with ha | ha <;> simp [verifyLoginJWT, segAsJson, ha]
  · intro header payload s2 e halg htyp hexp hle
    simp [verifyLoginJWT, segAsJson, halg, htyp, jsExpired, hexp, hle]
  · intro header payload s2 halg htyp hnexp hnsig
    simp [verifyLoginJWT, segAsJson, halg, htyp, hnexp, hnsig]

/-- Witness for C6: one concrete token per check - an empty token, a token
whose header carries a wrong algorithm (and which is also expired and
unsigned), an expired token with a garbage signature, and an unexpired token
with a garbage signature. -/
theorem verify_check_order_witness :
    verifyLoginJWT [] ⟨1⟩ 0 = .error .malformedToken
    ∧ verifyLoginJWT
        [.json ⟨some "HS256", some "JWT", none, none, some (-5), none, none⟩,
         .raw 0, .raw 0] ⟨1⟩ 0 = .error .unsupportedAlgorithm
    ∧ verifyLoginJWT
        [.json jwtHeader, .json ⟨none, none, none, none, some 0, none, none⟩,
         .raw 0] ⟨1⟩ 0 = .error .tokenExpired
    ∧ verifyLoginJWT
        [.json jwtHeader, .json ⟨none, none, none, none, some 1, none, none⟩,
         .raw 0] ⟨1⟩ 0 = .error .invalidSignature :=
  ⟨(verify_check_order ⟨1⟩ 0).1 [] (by decide),
   (verify_check_order ⟨1⟩ 0).2.1 _ _ _ (Or.inl (by decide)),
   (verify_check_order ⟨1⟩ 0).2.2.1 _ _ _ 0 rfl rfl rfl (by decide),
   (verify_check_order ⟨1⟩ 0).2.2.2 _ _ _ rfl rfl (by decide) (by decide)⟩

/-- Claim C7: every payload issued by the current token revision carries
exactly the fields sub (the callback URL), iat, exp and - only when custom
data is supplied and non-empty - cstm_dat; in particular no iss claim.  The
public key travels out-of-band: `proceedWithLogin` puts the token in the
`jwt` parameter and the base64url SPKI of the verifying key in the separate
`pubKey` parameter of the redirect. -/
theorem current_token_payload_exact_fields
    (sk : EcPrivKey) (pk : EcPubKey) (url : String) (custom : Option String)
    (now : Int) :
    (currentLoginPayload url custom now).iss = none
    ∧ (currentLoginPayload url custom now).alg = none
    ∧ (currentLoginPayload url custom now).typ = none
    ∧ (currentLoginPayload url custom now).sub = some url
    ∧ (currentLoginPayload url custom now).iat = some now
    ∧ (currentLoginPayload url custom now).exp = some (now + 86400)
    ∧ (∀ s : String,
        (currentLoginPayload url custom now).cstm_dat = some s
          ↔ custom = some s ∧ s ≠ "")
    ∧ (proceedWithLogin sk pk url custom now).jwtParam
        = createSignedLoginTokenCurrent sk url custom now
    ∧ (proceedWithLogin sk pk url custom now).pubKeyParam
        = exportPublicKeyToSpkiBase64Url pk := by
  refine ⟨rfl, rfl, rfl, rfl, rfl, rfl, ?_, rfl, rfl⟩
  intro s
  cases custom with
  | none => simp [currentLoginPayload, normalizeCustomData]
  | some t =>
    by_cases ht : t = ""
    · simp [currentLoginPayload, normalizeCustomData, ht]
      exact fun he => he.symm
    · simp [currentLoginPayload, normalizeCustomData, ht]
      exact fun he hse => ht (he.trans hse)

/-- Witness for C7: the concrete payload issued for a concrete URL with
custom data "hello" at time 10 - no iss claim, cstm_dat present, and the
public key carried in the separate pubKey redirect parameter. -/
theorem current_token_payload_exact_fields_witness :
    (currentLoginPayload "https://cb.example/" (some "hello") 10).iss = none
    ∧ (currentLoginPayload "https://cb.example/" (some "hello") 10).cstm_dat
        = some "hello"
    ∧ (proceedWithLogin ⟨2⟩ ⟨3⟩ "https://cb.example/" (some "hello") 10).pubKeyParam
        = exportPublicKeyToSpkiBase64Url ⟨3⟩ :=
  ⟨(current_token_payload_exact_fields ⟨2⟩ ⟨3⟩ _ _ 10).1,
   ((current_token_payload_exact_fields ⟨2⟩ ⟨3⟩ _ _ 10).2.2.2.2.2.2.1
     "hello").mpr ⟨rfl, by decide⟩,
   (current_token_payload_exact_fields ⟨2⟩ ⟨3⟩ _ _ 10).2.2.2.2.2.2.2.2⟩

/-- Claim C8: a callback URL whose host equals the application's own host,
and a non-HTTPS callback while the application is served over HTTPS, are
rejected by the login flow with the corresponding error - for every state of
the trust flag, since the guards run before the trust lookup - and in no
such case is a signed token issued. -/
theorem login_flow_guards_before_trust
    (u location : UrlT) (keys : Option (EcPrivKey × EcPubKey))
    (trusted : Bool) (payloadData : Option String) (now : Int) :
    (u.host = location.host →
      loginFlowOnMount (some (some u)) location keys trusted payloadData now
        = .errorSameHost)
    ∧ (u.host ≠ location.host → location.protocol = "https:" →
        u.protocol ≠ "https:" →
      loginFlowOnMount (some (some u)) location keys trusted payloadData now
        = .errorInsecureCallback)
    ∧ ((u.host = location.host ∨
        (location.protocol = "https:" ∧ u.protocol ≠ "https:")) →
      ∀ r : LoginRedirect,
        loginFlowOnMount (some (some u)) location keys trusted payloadData now
          ≠ .proceedLogin r) := by
  refine ⟨?_, ?_, ?_⟩
  · intro h
    simp [loginFlowOnMount, h]
  · intro h1 h2 h3
    simp [loginFlowOnMount, h1, h2, h3]
  · intro h r
    rcases h with h | h
    · simp [loginFlowOnMount, h]
    · by_cases hh : u.host = location.host <;>
        simp [loginFlowOnMount, hh, h.1, h.2]

/-- Witness for C8: a same-host callback and an insecure callback from a
secure context, both rejected even with the trust flag set, keys present,
and never reaching token issuance. -/
theorem login_flow_guards_before_trust_witness :
    loginFlowOnMount (some (some ⟨"https:", "app.example", "/x"⟩))
      ⟨"https:", "app.example", "/"⟩ (some (⟨1⟩, ⟨1⟩)) true none 0
      = .errorSameHost
    ∧ loginFlowOnMount (some (some ⟨"http:", "cb.example", "/x"⟩))
      ⟨"https:", "app.example", "/"⟩ (some (⟨1⟩, ⟨1⟩)) true none 0
      = .errorInsecureCallback :=
  ⟨(login_flow_guards_before_trust _ _ (some (⟨1⟩, ⟨1⟩)) true none 0).1 rfl,
   (login_flow_guards_before_trust _ _ (some (⟨1⟩, ⟨1⟩)) true none 0).2.1
     (by decide) rfl (by decide)⟩

/-- Claim C9: confirming a callback URL twice in a row leaves it trusted,
and a distinct URL - including one differing only by path or a trailing
slash - that was never confirmed stays untrusted, because trust records are
keyed by exact string equality of the URL. -/
theorem trust_confirm_idempotent_exact_match
    (store : TrustStore) (url : String) :
    isCallbackUrlTrusted
      (saveTrustedCallbackUrl (saveTrustedCallbackUrl store url) url) url
      = true
    ∧ (∀ url2 : String, url2 ≠ url →
        isCallbackUrlTrusted store url2 = false →
        isCallbackUrlTrusted
          (saveTrustedCallbackUrl (saveTrustedCallbackUrl store url) url) url2
          = false) := by
  constructor
  · simp [isCallbackUrlTrusted, trustStoreGet, saveTrustedCallbackUrl]
  · intro url2 hne hfalse
    have h2 : url ≠ url2 := fun e => hne e.symm
    simpa [isCallbackUrlTrusted, trustStoreGet, saveTrustedCallbackUrl, h2]
      using hfalse

/-- Witness for C9: confirming one URL twice in an empty store leaves it
trusted while the same URL with a trailing slash stays untrusted. -/
theorem trust_confirm_idempotent_exact_match_witness :
    isCallbackUrlTrusted
      (saveTrustedCallbackUrl
        (saveTrustedCallbackUrl [] "https://site.example/cb")
        "https://site.example/cb") "https://site.example/cb" = true
    ∧ isCallbackUrlTrusted
      (saveTrustedCallbackUrl
        (saveTrustedCallbackUrl [] "https://site.example/cb")
        "https://site.example/cb") "https://site.example/cb/" = false :=
  ⟨(trust_confirm_idempotent_exact_match [] _).1,
   (trust_confirm_idempotent_exact_match [] _).2 "https://site.example/cb/"
     (by decide) rfl⟩

/-- Claim C10: issuing with custom payload data that is the empty string
produces a token identical to issuing with absent custom data - the payload
then carries no cstm_dat field at all - and cstm_dat is present exactly when
the supplied custom data is a non-empty string. -/
theorem cstm_dat_empty_indistinguishable
    (sk : EcPrivKey) (pk : EcPubKey) (url : String) (now : Int) :
    createSignedLoginToken sk pk url (some "") now
      = createSignedLoginToken sk pk url none now
    ∧ (loginTokenPayload pk url (some "") now).cstm_dat = none
    ∧ (loginTokenPayload pk url none now).cstm_dat = none
    ∧ (∀ c : Option String, ∀ s : String,
        (loginTokenPayload pk url c now).cstm_dat = some s
          ↔ c = some s ∧ s ≠ "") := by
  refine ⟨rfl, rfl, rfl, ?_⟩
  intro c s
  cases c with
  | none => simp [loginTokenPayload, normalizeCustomData]
  | some t =>
    by_cases ht : t = ""
    · simp [loginTokenPayload, normalizeCustomData, ht]
      exact fun he => he.symm
    · simp [loginTokenPayload, normalizeCustomData, ht]
      exact fun he hse => ht (he.trans hse)

/-- Witness for C10: at a concrete key pair, URL and clock, the empty-string
and absent custom payloads give the same token, and a non-empty custom
payload "x" appears as cstm_dat. -/
theorem cstm_dat_empty_indistinguishable_witness :
    createSignedLoginToken ⟨1⟩ ⟨2⟩ "https://cb.example/" (some "") 0
      = createSignedLoginToken ⟨1⟩ ⟨2⟩ "https://cb.example/" none 0
    ∧ (loginTokenPayload ⟨2⟩ "https://cb.example/" (some "x") 0).cstm_dat
        = some "x" :=
  ⟨(cstm_dat_empty_indistinguishable ⟨1⟩ ⟨2⟩ _ 0).1,
   ((cstm_dat_empty_indistinguishable ⟨1⟩ ⟨2⟩ _ 0).2.2.2 (some "x") "x").mpr
     ⟨rfl, by decide⟩⟩

end XAuth
